import Mathlib

/-!
Verification of the DebugMCP state-synchronization core.

This file gives a shallow embedding, in Lean, of the pure logic of the
repository under study: the `DebugState` snapshot entity (`debugState.ts`),
the meaningful-change predicate `hasStateChanged` and the polling loop
`waitForStateChange` (`debuggingHandler.ts`), the response formatter
`formatDebugState`, the per-operation session gates of the tool handlers,
the breakpoint content matching of `handleAddBreakpoint`, and the snapshot
construction `getCurrentDebugState` (`debuggingExecutor.ts`).

Asynchronous effects are modelled by explicit parameters: the polling loop
receives the list of snapshots its successive queries would observe plus
the final post-timeout query result; handlers receive the booleans and data
the surrounding environment (editor, debug engine) would supply.
-/

namespace DebugMCP

/-! ## String helpers mirroring the JavaScript primitives used by the code -/

/-- `listHasPre needle hay` is true when `needle` is an initial segment of
`hay` (character lists). -/
def listHasPre : List Char → List Char → Bool
  | [], _ => true
  | _ :: _, [] => false
  | c :: cs, d :: ds => c == d && listHasPre cs ds

/-- `listContainsSub needle hay`: `needle` occurs contiguously inside `hay`.
Mirrors JavaScript `String.prototype.includes`. -/
def listContainsSub (needle : List Char) : List Char → Bool
  | [] => listHasPre needle []
  | c :: rest => listHasPre needle (c :: rest) || listContainsSub needle rest

/-- JavaScript `hay.includes(needle)`. -/
def strIncludes (hay needle : String) : Bool :=
  listContainsSub needle.data hay.data

/-- `s` starts with the segment `p`. -/
def strStarts (s p : String) : Bool :=
  listHasPre p.data s.data

/-- JavaScript `String.prototype.trim` (whitespace stripped from both ends),
implemented on character lists so it evaluates in the kernel. -/
def jsTrim (s : String) : String :=
  String.mk (((s.data.dropWhile Char.isWhitespace).reverse.dropWhile Char.isWhitespace).reverse)

/-- Is `c` one of the path separators of the regex `/[/\\]/`? -/
def pathSep (c : Char) : Bool :=
  c == '/' || c == '\\'

/-- JavaScript `s.split(/[/\\]/)` used to derive a short file name from a
full path. -/
def splitPathSegs (s : String) : List String :=
  go s.data []
where
  go : List Char → List Char → List String
    | [], acc => [String.mk acc.reverse]
    | c :: rest, acc =>
      if pathSep c then String.mk acc.reverse :: go rest []
      else go rest (c :: acc)

/-- JavaScript `path.split(/[/\\]/).pop() || ''`. -/
def lastPathComponent (s : String) : String :=
  ((splitPathSegs s).getLast?).getD ""

/-- JavaScript `text.split(/\r?\n/)`: split into lines at `\n`, with an
immediately preceding `\r` consumed by the separator. -/
def splitLinesJS (text : String) : List String :=
  go text.data []
where
  go : List Char → List Char → List String
    | [], acc => [String.mk acc.reverse]
    | c :: rest, acc =>
      if c = '\n' then
        (match acc with
          | '\r' :: acc2 => String.mk acc2.reverse
          | acc2 => String.mk acc2.reverse) :: go rest []
      else go rest (c :: acc)

/-- JavaScript `numbers.join(', ')`. -/
def joinComma (l : List Nat) : String :=
  String.intercalate ", " (l.map toString)

/-! ## The `DebugState` snapshot entity (`debugState.ts`)

TypeScript `T | null` fields become `Option` fields; `nextLines` is a
plain list. -/

/-- The debugger state snapshot of `debugState.ts`. -/
structure DebugState where
  sessionActive : Bool
  fileFullPath : Option String
  fileName : Option String
  currentLine : Option Nat
  currentLineContent : Option String
  nextLines : List String
  frameId : Option Int
  threadId : Option Int
  frameName : Option String
deriving Repr, DecidableEq

/-- The `DebugState` constructor: session inactive, every field null/empty. -/
def DebugState.init : DebugState :=
  { sessionActive := false
    fileFullPath := none
    fileName := none
    currentLine := none
    currentLineContent := none
    nextLines := []
    frameId := none
    threadId := none
    frameName := none }

/-- `DebugState.hasValidContext`. -/
def DebugState.hasValidContext (s : DebugState) : Bool :=
  s.sessionActive && s.frameId.isSome && s.threadId.isSome

/-- `DebugState.hasLocationInfo`: file name and current line both set. -/
def DebugState.hasLocationInfo (s : DebugState) : Bool :=
  s.fileName.isSome && s.currentLine.isSome

/-- `DebugState.hasFrameName`. -/
def DebugState.hasFrameName (s : DebugState) : Bool :=
  s.frameName.isSome

/-- `DebugState.updateContext`. -/
def DebugState.updateContext (s : DebugState) (fid tid : Int) : DebugState :=
  { s with frameId := some fid, threadId := some tid }

/-- `DebugState.updateLocation`. -/
def DebugState.updateLocation (s : DebugState) (ffp fn : String) (cl : Nat)
    (clc : String) (nl : List String) : DebugState :=
  { s with
    fileFullPath := some ffp
    fileName := some fn
    currentLine := some cl
    currentLineContent := some clc
    nextLines := nl }

/-- `DebugState.updateFrameName` (the `string | null` argument). -/
def DebugState.updateFrameName (s : DebugState) (n : Option String) : DebugState :=
  { s with frameName := n }

/-- `DebugState.clone`: field-by-field copy. -/
def DebugState.clone (s : DebugState) : DebugState :=
  { sessionActive := s.sessionActive
    fileFullPath := s.fileFullPath
    fileName := s.fileName
    currentLine := s.currentLine
    currentLineContent := s.currentLineContent
    nextLines := s.nextLines
    frameId := s.frameId
    threadId := s.threadId
    frameName := s.frameName }

/-! ## Meaningful-change detection (`DebuggingHandler.hasStateChanged`) -/

/-- `hasStateChanged` of `debuggingHandler.ts`, clause for clause in source
order: transient-gap suppression first, then session-status change, then
session-inactive, then the one-sided-location comparison, then field-by-field
comparison of path, line, frame name and frame id. -/
def hasStateChanged (beforeState afterState : DebugState) : Bool :=
  if beforeState.hasLocationInfo && !afterState.hasLocationInfo && afterState.sessionActive then
    false
  else if beforeState.sessionActive ≠ afterState.sessionActive then
    true
  else if !afterState.sessionActive then
    true
  else if !beforeState.hasLocationInfo || !afterState.hasLocationInfo then
    decide (beforeState.hasLocationInfo ≠ afterState.hasLocationInfo)
  else if beforeState.fileFullPath ≠ afterState.fileFullPath then
    true
  else if beforeState.currentLine ≠ afterState.currentLine then
    true
  else if beforeState.frameName ≠ afterState.frameName then
    true
  else if beforeState.frameId ≠ afterState.frameId then
    true
  else
    false

/-! ## The polling loop (`DebuggingHandler.waitForStateChange`)

The loop body runs while the overall timeout has not elapsed; each
iteration queries a fresh snapshot. We model the sequence of snapshots the
in-budget iterations would observe as the list `polls` (the timeout elapsing
corresponds to the list running out), and the one final unconditional
post-timeout query as `finalQuery`. -/

/-- `waitForStateChange`: return the first polled snapshot that changed
meaningfully, or the first session-inactive one; on timeout (polls
exhausted) perform the final unconditional query and return it. -/
def waitForStateChange (beforeState : DebugState) :
    List DebugState → DebugState → DebugState
  | [], finalQuery => finalQuery
  | currentState :: rest, finalQuery =>
    if hasStateChanged beforeState currentState then currentState
    else if !currentState.sessionActive then currentState
    else waitForStateChange beforeState rest finalQuery

/-! ## The response formatter (`DebuggingHandler.formatDebugState`) -/

/-- `formatDebugState`: fixed text when inactive; otherwise a header, a
`Frame:` line when a frame name is present, and either the File/Line/source
block or a fixed no-location notice. -/
def formatDebugState (state : DebugState) : String :=
  if !state.sessionActive then
    "Debug session is not active"
  else
    let output := "Debug State:\n==========\n\n"
    let output := if state.hasFrameName then
        output ++ "Frame: " ++ state.frameName.getD "" ++ "\n"
      else output
    let output := if state.hasLocationInfo then
        output ++ "File: " ++ state.fileName.getD "" ++ "\n" ++
          "Line: " ++ toString (state.currentLine.getD 0) ++ "\n" ++
          toString (state.currentLine.getD 0) ++ ": " ++
          state.currentLineContent.getD "" ++ "\n"
      else
        output ++ "No location information available. The session might have stopped or ended\n"
    output

/-! ## Tool handlers (`debuggingHandler.ts`)

Each handler is a `try`-block whose own `throw`s are caught and re-wrapped
by its `catch` into one message of the form
`"Error <op>: Error: <inner message>"` (the JavaScript `Error` stringifies
with an `Error: ` tag). We model a handler as an `Except String String`:
`error` for a throwing call, `ok` for the returned text. The asynchronous
inputs (whether `hasActiveSession()` holds, the snapshots the polling loop
would observe, the frame the engine reports, ...) are explicit parameters. -/

/-- `handleStartDebugging`, after configuration resolution (out of scope, so
the launch-summary fragment `configInfo` is a parameter): if the launch call
reports failure, throw the install-hint error; if it reports success but the
session never becomes active within the timeout, throw a distinct error;
otherwise report success together with the formatted current state. -/
def handleStartDebugging (fileFullPath configInfo : String)
    (started becameActive : Bool) (currentState : DebugState) :
    Except String String :=
  if started then
    if becameActive then
      Except.ok ("Debug session started successfully for: " ++ fileFullPath ++
        configInfo ++ ". Current state: " ++ formatDebugState currentState)
    else
      Except.error ("Error starting debug session: Error: " ++
        "Debug session started but failed to become active within timeout period")
  else
    Except.error ("Error starting debug session: Error: " ++
      "Failed to start debug session. Make sure the appropriate language extension is installed.")

/-- `handleStopDebugging`: with no active session it RETURNS (does not
throw) a fixed message; otherwise it stops, optionally clears breakpoints,
and appends the root-cause checkpoint text (a long constant, abstracted as
the parameter `checkpointMsg`). -/
def handleStopDebugging (hasActive : Bool) (breakpointCount : Nat)
    (checkpointMsg : String) : Except String String :=
  if !hasActive then
    Except.ok "No active debug session to stop"
  else if breakpointCount > 0 then
    Except.ok ("Debug session stopped successfully. Cleared " ++
      toString breakpointCount ++ " breakpoint(s)." ++ "\n\n" ++ checkpointMsg)
  else
    Except.ok ("Debug session stopped successfully" ++ "\n\n" ++ checkpointMsg)

/-- The not-ready message thrown by the step and continue handlers. -/
def stepNotReadyMsg : String :=
  "Debug session is not ready. Please wait for initialization to complete."

/-- `handleStepOver`: gate on `hasActiveSession()`, then step and wait for
the state to change, returning the formatted snapshot. -/
def handleStepOver (hasActive : Bool) (beforeState : DebugState)
    (polls : List DebugState) (finalQuery : DebugState) : Except String String :=
  if !hasActive then
    Except.error ("Error executing step over: Error: " ++ stepNotReadyMsg)
  else
    Except.ok (formatDebugState (waitForStateChange beforeState polls finalQuery))

/-- `handleStepInto`: same structure as `handleStepOver`. -/
def handleStepInto (hasActive : Bool) (beforeState : DebugState)
    (polls : List DebugState) (finalQuery : DebugState) : Except String String :=
  if !hasActive then
    Except.error ("Error executing step into: Error: " ++ stepNotReadyMsg)
  else
    Except.ok (formatDebugState (waitForStateChange beforeState polls finalQuery))

/-- `handleStepOut`: same structure as `handleStepOver`. -/
def handleStepOut (hasActive : Bool) (beforeState : DebugState)
    (polls : List DebugState) (finalQuery : DebugState) : Except String String :=
  if !hasActive then
    Except.error ("Error executing step out: Error: " ++ stepNotReadyMsg)
  else
    Except.ok (formatDebugState (waitForStateChange beforeState polls finalQuery))

/-- `handleContinue`: same structure as `handleStepOver`. -/
def handleContinue (hasActive : Bool) (beforeState : DebugState)
    (polls : List DebugState) (finalQuery : DebugState) : Except String String :=
  if !hasActive then
    Except.error ("Error executing continue: Error: " ++ stepNotReadyMsg)
  else
    Except.ok (formatDebugState (waitForStateChange beforeState polls finalQuery))

/-- `handleRestart`: gate on `hasActiveSession()`, then restart. -/
def handleRestart (hasActive : Bool) : Except String String :=
  if !hasActive then
    Except.error ("Error restarting debug session: Error: No active debug session to restart")
  else
    Except.ok "Debug session restarted successfully"

/-- The not-ready message thrown by the variable and expression handlers. -/
def inspectNotReadyMsg : String :=
  "Debug session is not ready. Start debugging first and ensure execution is paused."

/-- `handleGetVariables`: session gate, then active-stack-frame gate, then
the formatted variable dump (that rendering is abstracted as `report`). -/
def handleGetVariables (hasActive : Bool) (activeFrameId : Option Int)
    (report : String) : Except String String :=
  if !hasActive then
    Except.error ("Error getting variables: Error: " ++ inspectNotReadyMsg)
  else
    match activeFrameId with
    | none => Except.error
        "Error getting variables: Error: No active stack frame. Make sure execution is paused at a breakpoint."
    | some _ => Except.ok report

/-- `handleEvaluateExpression`: session gate, then active-stack-frame gate,
then the evaluated result text (rendering abstracted as `report`). -/
def handleEvaluateExpression (hasActive : Bool) (activeFrameId : Option Int)
    (report : String) : Except String String :=
  if !hasActive then
    Except.error ("Error evaluating expression: Error: " ++ inspectNotReadyMsg)
  else
    match activeFrameId with
    | none => Except.error
        "Error evaluating expression: Error: No active stack frame. Make sure execution is paused at a breakpoint."
    | some _ => Except.ok report

/-! ## Breakpoint placement by content match (`handleAddBreakpoint`) -/

/-- The scanning loop of `handleAddBreakpoint`: walk the lines with a
0-based index `i` and collect `i + 1` for every line containing
`lineContent`. -/
def matchingAux (lineContent : String) : List String → Nat → List Nat
  | [], _ => []
  | l :: rest, i =>
    if strIncludes l lineContent then
      (i + 1) :: matchingAux lineContent rest (i + 1)
    else
      matchingAux lineContent rest (i + 1)

/-- All 1-based line numbers whose text contains `lineContent`. -/
def matchingLineNumbers (lines : List String) (lineContent : String) : List Nat :=
  matchingAux lineContent lines 0

/-- `handleAddBreakpoint`: split the document text into lines, collect every
matching 1-based line number, throw when there is none (before any
breakpoint is added), otherwise add a breakpoint per match (the returned
list) and report one or many locations. -/
def handleAddBreakpoint (fileFullPath text lineContent : String) :
    Except String (List Nat × String) :=
  let lines := splitLinesJS text
  let m := matchingLineNumbers lines lineContent
  if m.length = 0 then
    Except.error ("Error adding breakpoint: Error: Could not find any lines containing: " ++
      lineContent)
  else if m.length = 1 then
    Except.ok (m, "Breakpoint added at " ++ fileFullPath ++ ":" ++ toString (m.getD 0 0))
  else
    Except.ok (m, "Breakpoints added at " ++ toString m.length ++ " locations in " ++
      fileFullPath ++ ": lines " ++ joinComma m)

/-! ## Snapshot construction (`DebuggingExecutor.getCurrentDebugState`)

The ambient host state the executor reads (active session, active stack
item, the stack-trace response used for the frame name, the active editor)
is modelled as an explicit environment record. -/

/-- The active text editor: full document path, 0-based cursor line, and the
document lines. -/
structure EditorInfo where
  fileFullPath : String
  cursorLine : Nat
  lines : List String
deriving Repr, DecidableEq

/-- Ambient host state read by `getCurrentDebugState`: whether a debug
session exists, the active stack item (frameId, threadId) when paused, the
frame name the stack-trace request yields (`none` when the request fails,
returns no frames, or the frame has no name), and the active editor. -/
structure DebugEnv where
  hasActiveDebugSession : Bool
  activeStackFrame : Option (Int × Int)
  stackTraceFrameName : Option String
  activeEditor : Option EditorInfo
deriving Repr, DecidableEq

/-- The look-ahead window: for i in 1..numNextLines, the trimmed text of
line `cursorLine + i` when it exists. -/
def nextLinesOf (lines : List String) (cursorLine numNextLines : Nat) : List String :=
  (List.range numNextLines).filterMap fun k =>
    if cursorLine + k + 1 < lines.length then
      some (jsTrim (lines.getD (cursorLine + k + 1) ""))
    else
      none

/-- `getCurrentDebugState`: start from the freshly constructed state; if a
session exists mark it active; if an active stack frame exists record the
execution context and the frame name; if moreover an editor is open, record
the location (short file name, 1-based line, trimmed line text, look-ahead
lines). -/
def getCurrentDebugState (env : DebugEnv) (numNextLines : Nat) : DebugState :=
  let state := DebugState.init
  if env.hasActiveDebugSession then
    let state := { state with sessionActive := true }
    match env.activeStackFrame with
    | none => state
    | some (fid, tid) =>
      let state := state.updateContext fid tid
      let state := state.updateFrameName env.stackTraceFrameName
      match env.activeEditor with
      | none => state
      | some ed =>
        let fileName := lastPathComponent ed.fileFullPath
        let currentLine := ed.cursorLine + 1
        let currentLineContent := jsTrim (ed.lines.getD ed.cursorLine "")
        state.updateLocation ed.fileFullPath fileName currentLine currentLineContent
          (nextLinesOf ed.lines ed.cursorLine numNextLines)
  else
    state

/-! ## Helper lemmas -/

/-- Cloning copies every field, so the clone equals the original. -/
theorem DebugState.clone_eq (s : DebugState) : s.clone = s := rfl

/-- A list is an initial segment of itself. -/
theorem hasPre_refl (n : List Char) : listHasPre n n = true := by
  induction n with
  | nil => rfl
  | cons c cs ih => simp [listHasPre, ih]

/-- A list is an initial segment of itself followed by anything. -/
theorem hasPre_self_append (n rest : List Char) : listHasPre n (n ++ rest) = true := by
  induction n with
  | nil => rfl
  | cons c cs ih => simp [listHasPre, ih]

/-- An initial segment occurs as a substring. -/
theorem containsSub_of_hasPre (n l : List Char) (h : listHasPre n l = true) :
    listContainsSub n l = true := by
  cases l with
  | nil => simpa [listContainsSub] using h
  | cons c rest => simp [listContainsSub, h]

/-- A substring of the right part occurs in the whole. -/
theorem containsSub_append_right (n a b : List Char) (h : listContainsSub n b = true) :
    listContainsSub n (a ++ b) = true := by
  induction a with
  | nil => simpa using h
  | cons c cs ih => simp [listContainsSub, ih]

/-- A segment placed after any material occurs as a substring. -/
theorem containsSub_self_mid (n a rest : List Char) :
    listContainsSub n (a ++ (n ++ rest)) = true :=
  containsSub_append_right n a (n ++ rest)
    (containsSub_of_hasPre n (n ++ rest) (hasPre_self_append n rest))

/-- Membership in the scanning loop of `handleAddBreakpoint`, for an
arbitrary starting index: the collected numbers are exactly the 1-based
positions (relative to the start of the scan) of lines containing the
content. -/
theorem mem_matchingAux (content : String) (lines : List String) :
    ∀ (i n : Nat), n ∈ matchingAux content lines i ↔
      (i < n ∧ n ≤ i + lines.length ∧
        strIncludes (lines.getD (n - i - 1) "") content = true) := by
  induction lines with
  | nil =>
    intro i n
    simp only [matchingAux, List.not_mem_nil, List.length_nil, false_iff, not_and]
    intro h1 h2
    omega
  | cons l rest ih =>
    intro i n
    by_cases hl : strIncludes l content = true
    · simp only [matchingAux, hl, if_true, List.mem_cons, ih (i + 1) n, List.length_cons]
      constructor
      · rintro (rfl | ⟨h1, h2, h3⟩)
        · refine ⟨by omega, by omega, ?_⟩
          have h0 : i + 1 - i - 1 = 0 := by omega
          rw [h0, List.getD_cons_zero]
          exact hl
        · refine ⟨by omega, by omega, ?_⟩
          have hk : n - i - 1 = (n - (i + 1) - 1) + 1 := by omega
          rw [hk, List.getD_cons_succ]
          exact h3
      · rintro ⟨h1, h2, h3⟩
        by_cases hn : n = i + 1
        · exact Or.inl hn
        · refine Or.inr ⟨by omega, by omega, ?_⟩
          have hk : n - i - 1 = (n - (i + 1) - 1) + 1 := by omega
          rw [hk, List.getD_cons_succ] at h3
          exact h3
    · have hl' : strIncludes l content = false := by
        revert hl
        cases strIncludes l content <;> simp
      simp only [matchingAux, hl', Bool.false_eq_true, if_false, ih (i + 1) n,
        List.length_cons]
      constructor
      · rintro ⟨h1, h2, h3⟩
        refine ⟨by omega, by omega, ?_⟩
        have hk : n - i - 1 = (n - (i + 1) - 1) + 1 := by omega
        rw [hk, List.getD_cons_succ]
        exact h3
      · rintro ⟨h1, h2, h3⟩
        have hn : n ≠ i + 1 := by
          rintro rfl
          have h0 : i + 1 - i - 1 = 0 := by omega
          rw [h0, List.getD_cons_zero] at h3
          rw [hl'] at h3
          exact Bool.false_ne_true h3
        refine ⟨by omega, by omega, ?_⟩
        have hk : n - i - 1 = (n - (i + 1) - 1) + 1 := by omega
        rw [hk, List.getD_cons_succ] at h3
        exact h3

/-! ## Claim theorems -/

/-- Claim C1: for every pair of snapshots where `before` has location info,
`after` lacks it, and `after.sessionActive` is true, `hasStateChanged`
returns false — the transient-gap rule is evaluated first and takes
precedence over every later rule, in particular over the generic
one-sided-location rule. -/
theorem transient_gap_suppressed (b a : DebugState)
    (hb : b.hasLocationInfo = true) (ha : a.hasLocationInfo = false)
    (hact : a.sessionActive = true) : hasStateChanged b a = false := by
  simp [hasStateChanged, hb, ha, hact]

/-- Witness for C1 at a concrete pair of snapshots. -/
theorem transient_gap_suppressed_witness :
    hasStateChanged
      { sessionActive := true, fileFullPath := some "/a/f.py", fileName := some "f.py",
        currentLine := some 3, currentLineContent := some "x = 1", nextLines := [],
        frameId := some 1, threadId := some 1, frameName := some "main" }
      { sessionActive := true, fileFullPath := none, fileName := none, currentLine := none,
        currentLineContent := none, nextLines := [], frameId := some 1, threadId := some 1,
        frameName := some "main" } = false :=
  transient_gap_suppressed
    { sessionActive := true, fileFullPath := some "/a/f.py", fileName := some "f.py",
      currentLine := some 3, currentLineContent := some "x = 1", nextLines := [],
      frameId := some 1, threadId := some 1, frameName := some "main" }
    { sessionActive := true, fileFullPath := none, fileName := none, currentLine := none,
      currentLineContent := none, nextLines := [], frameId := some 1, threadId := some 1,
      frameName := some "main" }
    (by decide) (by decide) (by decide)

/-- Claim C2: if `before` is session-active and `after` is not,
`hasStateChanged` returns true regardless of any other field differences,
and a poll of `waitForStateChange` that observes the session-inactive
snapshot returns it at once, ignoring any later poll results. -/
theorem session_end_always_change (b a : DebugState)
    (polls : List DebugState) (fq : DebugState)
    (hb : b.sessionActive = true) (ha : a.sessionActive = false) :
    hasStateChanged b a = true ∧ waitForStateChange b (a :: polls) fq = a := by
  have h1 : hasStateChanged b a = true := by
    simp [hasStateChanged, hb, ha]
  exact ⟨h1, by simp [waitForStateChange, h1]⟩

/-- Witness for C2 at concrete snapshots with a nonempty remaining poll
list. -/
theorem session_end_always_change_witness :
    hasStateChanged
      { sessionActive := true, fileFullPath := some "/a/f.py", fileName := some "f.py",
        currentLine := some 3, currentLineContent := some "x = 1", nextLines := [],
        frameId := some 1, threadId := some 1, frameName := some "main" }
      DebugState.init = true ∧
    waitForStateChange
      { sessionActive := true, fileFullPath := some "/a/f.py", fileName := some "f.py",
        currentLine := some 3, currentLineContent := some "x = 1", nextLines := [],
        frameId := some 1, threadId := some 1, frameName := some "main" }
      [DebugState.init, { DebugState.init with sessionActive := true }]
      { DebugState.init with sessionActive := true } = DebugState.init :=
  session_end_always_change
    { sessionActive := true, fileFullPath := some "/a/f.py", fileName := some "f.py",
      currentLine := some 3, currentLineContent := some "x = 1", nextLines := [],
      frameId := some 1, threadId := some 1, frameName := some "main" }
    DebugState.init
    [{ DebugState.init with sessionActive := true }]
    { DebugState.init with sessionActive := true }
    (by decide) (by decide)

/-- Counterexample for claim C3: two structurally identical snapshots with
`sessionActive = false` (here the freshly constructed state and its clone)
are reported as CHANGED by `hasStateChanged`, because the
session-inactive rule fires before any structural comparison. -/
theorem idempotent_read_counterexample :
    DebugState.init.clone = DebugState.init ∧
    DebugState.init.sessionActive = false ∧
    hasStateChanged DebugState.init DebugState.init.clone = true := by
  decide

/-- Claim C3 as amended: comparing a session-ACTIVE snapshot with its clone
(two consecutive reads with no change in between) yields no meaningful
change; for session-inactive snapshots `hasStateChanged` reports a change
even against an identical snapshot. -/
theorem idempotent_read_active (s : DebugState) (h : s.sessionActive = true) :
    hasStateChanged s s.clone = false := by
  rw [DebugState.clone_eq]
  simp [hasStateChanged, h]

/-- Witness for the amended C3 at a concrete active snapshot. -/
theorem idempotent_read_active_witness :
    hasStateChanged
      { sessionActive := true, fileFullPath := some "/a/f.py", fileName := some "f.py",
        currentLine := some 3, currentLineContent := some "x = 1", nextLines := ["y"],
        frameId := some 1, threadId := some 1, frameName := some "main" }
      (DebugState.clone
        { sessionActive := true, fileFullPath := some "/a/f.py", fileName := some "f.py",
          currentLine := some 3, currentLineContent := some "x = 1", nextLines := ["y"],
          frameId := some 1, threadId := some 1, frameName := some "main" }) = false :=
  idempotent_read_active
    { sessionActive := true, fileFullPath := some "/a/f.py", fileName := some "f.py",
      currentLine := some 3, currentLineContent := some "x = 1", nextLines := ["y"],
      frameId := some 1, threadId := some 1, frameName := some "main" }
    (by decide)

/-- Claim C10: meaningful-change detection is not symmetric — for this pair
of session-active snapshots, one with location info and one without,
`hasStateChanged` suppresses the change in one direction (transient-gap
rule) and reports it in the other (one-sided-location rule). -/
theorem change_detection_asymmetric :
    hasStateChanged
      { sessionActive := true, fileFullPath := some "/a/f.py", fileName := some "f.py",
        currentLine := some 10, currentLineContent := some "x = 1", nextLines := [],
        frameId := some 1, threadId := some 1, frameName := some "main" }
      { sessionActive := true, fileFullPath := none, fileName := none, currentLine := none,
        currentLineContent := none, nextLines := [], frameId := some 1, threadId := some 1,
        frameName := some "main" } = false ∧
    hasStateChanged
      { sessionActive := true, fileFullPath := none, fileName := none, currentLine := none,
        currentLineContent := none, nextLines := [], frameId := some 1, threadId := some 1,
        frameName := some "main" }
      { sessionActive := true, fileFullPath := some "/a/f.py", fileName := some "f.py",
        currentLine := some 10, currentLineContent := some "x = 1", nextLines := [],
        frameId := some 1, threadId := some 1, frameName := some "main" } = true := by
  decide

/-- Counterexample for claim C4: `stop_debugging` invoked while
`hasActiveSession()` is false does NOT fail — it returns a plain success
message, so the claim that every non-start, non-breakpoint operation fails
with a session-not-ready error instructing to start a session is false. -/
theorem operation_gate_counterexample :
    handleStopDebugging false 0 "" = Except.ok "No active debug session to stop" :=
  rfl

/-- Claim C4 as amended: with no active session, the step and continue
operations fail with a not-ready error that asks the caller to wait for
initialization (not to start a session); restart fails with a
no-active-session error; `get_variables_values` and `evaluate_expression`
fail with a not-ready error that does instruct the caller to start
debugging first; and `stop_debugging` does not fail at all but returns a
fixed notice. -/
theorem operation_gate_behavior (bs fq : DebugState) (polls : List DebugState)
    (bc : Nat) (cm rep : String) (fr : Option Int) :
    handleStopDebugging false bc cm = Except.ok "No active debug session to stop" ∧
    handleStepOver false bs polls fq =
      Except.error ("Error executing step over: Error: " ++ stepNotReadyMsg) ∧
    handleStepInto false bs polls fq =
      Except.error ("Error executing step into: Error: " ++ stepNotReadyMsg) ∧
    handleStepOut false bs polls fq =
      Except.error ("Error executing step out: Error: " ++ stepNotReadyMsg) ∧
    handleContinue false bs polls fq =
      Except.error ("Error executing continue: Error: " ++ stepNotReadyMsg) ∧
    handleRestart false =
      Except.error "Error restarting debug session: Error: No active debug session to restart" ∧
    handleGetVariables false fr rep =
      Except.error ("Error getting variables: Error: " ++ inspectNotReadyMsg) ∧
    handleEvaluateExpression false fr rep =
      Except.error ("Error evaluating expression: Error: " ++ inspectNotReadyMsg) ∧
    strIncludes inspectNotReadyMsg "Start debugging first" = true ∧
    strIncludes stepNotReadyMsg "Start debugging first" = false ∧
    strIncludes stepNotReadyMsg "wait for initialization" = true :=
  ⟨rfl, rfl, rfl, rfl, rfl, rfl, rfl, rfl, by decide, by decide, by decide⟩

/-- Claim C5: `add_breakpoint` collects exactly the 1-based numbers of the
lines whose text contains the given substring; with no match it throws the
could-not-find error (before adding any breakpoint), and with matches it
adds a breakpoint at every collected line and reports them. -/
theorem add_breakpoint_multi_match (fileFullPath text lineContent : String)
    (_hne : lineContent ≠ "") :
    (∀ n, n ∈ matchingLineNumbers (splitLinesJS text) lineContent ↔
      (1 ≤ n ∧ n ≤ (splitLinesJS text).length ∧
        strIncludes ((splitLinesJS text).getD (n - 1) "") lineContent = true)) ∧
    (matchingLineNumbers (splitLinesJS text) lineContent = [] →
      handleAddBreakpoint fileFullPath text lineContent =
        Except.error ("Error adding breakpoint: Error: Could not find any lines containing: " ++
          lineContent)) ∧
    (matchingLineNumbers (splitLinesJS text) lineContent ≠ [] →
      ∃ msg, handleAddBreakpoint fileFullPath text lineContent =
        Except.ok (matchingLineNumbers (splitLinesJS text) lineContent, msg)) := by
  refine ⟨?_, ?_, ?_⟩
  · intro n
    have h := mem_matchingAux lineContent (splitLinesJS text) 0 n
    simpa [matchingLineNumbers, Nat.lt_iff_add_one_le] using h
  · intro hm
    simp [handleAddBreakpoint, hm]
  · intro hm
    have hlen : (matchingLineNumbers (splitLinesJS text) lineContent).length ≠ 0 := by
      simpa [List.length_eq_zero] using hm
    by_cases h1 : (matchingLineNumbers (splitLinesJS text) lineContent).length = 1
    · refine ⟨"Breakpoint added at " ++ fileFullPath ++ ":" ++
        toString ((matchingLineNumbers (splitLinesJS text) lineContent).getD 0 0), ?_⟩
      simp [handleAddBreakpoint, hlen, h1]
    · refine ⟨"Breakpoints added at " ++
        toString (matchingLineNumbers (splitLinesJS text) lineContent).length ++
        " locations in " ++ fileFullPath ++ ": lines " ++
        joinComma (matchingLineNumbers (splitLinesJS text) lineContent), ?_⟩
      simp [handleAddBreakpoint, hlen, h1]

/-- Witness for C5: in a three-line file whose first and third lines contain
the content, lines 1 and 3 are matched. -/
theorem add_breakpoint_multi_match_witness :
    3 ∈ matchingLineNumbers (splitLinesJS "x = 5\ny\nw x = 5 z") "x = 5" :=
  ((add_breakpoint_multi_match "/a/f.py" "x = 5\ny\nw x = 5 z" "x = 5" (by decide)).1 3).mpr
    (by decide)

/-- Claim C6: when no in-budget poll iteration sees a meaningful change and
every polled snapshot is still session-active, `waitForStateChange` does not
raise — it falls through the loop and returns the result of the final
unconditional query, which may equal the before-snapshot. -/
theorem timeout_fallback (before fq : DebugState) (polls : List DebugState)
    (h : ∀ s ∈ polls, hasStateChanged before s = false ∧ s.sessionActive = true) :
    waitForStateChange before polls fq = fq := by
  induction polls with
  | nil => rfl
  | cons c rest ih =>
    obtain ⟨h1, h2⟩ := h c (List.mem_cons_self c rest)
    rw [waitForStateChange, h1]
    simp only [h2, Bool.not_true, Bool.false_eq_true, if_false]
    exact ih fun s hs => h s (List.mem_cons_of_mem c hs)

/-- Witness for C6: an unchanged active snapshot polled twice, then the
final query is returned even though it equals the before-snapshot. -/
theorem timeout_fallback_witness :
    waitForStateChange
      { sessionActive := true, fileFullPath := some "/a/f.py", fileName := some "f.py",
        currentLine := some 3, currentLineContent := some "x = 1", nextLines := [],
        frameId := some 1, threadId := some 1, frameName := some "main" }
      [{ sessionActive := true, fileFullPath := some "/a/f.py", fileName := some "f.py",
         currentLine := some 3, currentLineContent := some "x = 1", nextLines := [],
         frameId := some 1, threadId := some 1, frameName := some "main" },
       { sessionActive := true, fileFullPath := some "/a/f.py", fileName := some "f.py",
         currentLine := some 3, currentLineContent := some "x = 1", nextLines := [],
         frameId := some 1, threadId := some 1, frameName := some "main" }]
      { sessionActive := true, fileFullPath := some "/a/f.py", fileName := some "f.py",
        currentLine := some 3, currentLineContent := some "x = 1", nextLines := [],
        frameId := some 1, threadId := some 1, frameName := some "main" } =
    { sessionActive := true, fileFullPath := some "/a/f.py", fileName := some "f.py",
      currentLine := some 3, currentLineContent := some "x = 1", nextLines := [],
      frameId := some 1, threadId := some 1, frameName := some "main" } :=
  timeout_fallback
    { sessionActive := true, fileFullPath := some "/a/f.py", fileName := some "f.py",
      currentLine := some 3, currentLineContent := some "x = 1", nextLines := [],
      frameId := some 1, threadId := some 1, frameName := some "main" }
    { sessionActive := true, fileFullPath := some "/a/f.py", fileName := some "f.py",
      currentLine := some 3, currentLineContent := some "x = 1", nextLines := [],
      frameId := some 1, threadId := some 1, frameName := some "main" }
    [{ sessionActive := true, fileFullPath := some "/a/f.py", fileName := some "f.py",
       currentLine := some 3, currentLineContent := some "x = 1", nextLines := [],
       frameId := some 1, threadId := some 1, frameName := some "main" },
     { sessionActive := true, fileFullPath := some "/a/f.py", fileName := some "f.py",
       currentLine := some 3, currentLineContent := some "x = 1", nextLines := [],
       frameId := some 1, threadId := some 1, frameName := some "main" }]
    (by decide)

/-- Claim C8: the two launch-failure modes are distinguished — a launch call
reporting failure yields an immediate error with the install-the-extension
hint, while a successful launch that never becomes active within the
timeout yields a distinct started-but-not-active error. -/
theorem launch_failure_modes (fileFullPath configInfo : String)
    (becameActive : Bool) (st : DebugState) :
    handleStartDebugging fileFullPath configInfo false becameActive st =
      Except.error ("Error starting debug session: Error: " ++
        "Failed to start debug session. Make sure the appropriate language extension is installed.") ∧
    handleStartDebugging fileFullPath configInfo true false st =
      Except.error ("Error starting debug session: Error: " ++
        "Debug session started but failed to become active within timeout period") ∧
    ("Error starting debug session: Error: " ++
        "Failed to start debug session. Make sure the appropriate language extension is installed." ≠
      "Error starting debug session: Error: " ++
        "Debug session started but failed to become active within timeout period") ∧
    strIncludes ("Error starting debug session: Error: " ++
        "Failed to start debug session. Make sure the appropriate language extension is installed.")
      "Make sure the appropriate language extension is installed" = true ∧
    strIncludes ("Error starting debug session: Error: " ++
        "Debug session started but failed to become active within timeout period")
      "started but failed to become active" = true :=
  ⟨rfl, rfl, by decide, by decide, by decide⟩

/-- Claim C9: every snapshot built by `getCurrentDebugState` satisfies the
invariant — an inactive snapshot is exactly the all-absent constructed
state, and location fields are only populated when the execution context
(frameId and threadId) has been populated. -/
theorem snapshot_invariant (env : DebugEnv) (n : Nat) :
    ((getCurrentDebugState env n).sessionActive = false →
      getCurrentDebugState env n = DebugState.init) ∧
    ((getCurrentDebugState env n).hasLocationInfo = true →
      (getCurrentDebugState env n).frameId.isSome = true ∧
      (getCurrentDebugState env n).threadId.isSome = true) := by
  obtain ⟨has, asf, stn, ae⟩ := env
  cases has
  · simp [getCurrentDebugState, DebugState.init, DebugState.hasLocationInfo]
  · cases asf with
    | none =>
      simp [getCurrentDebugState, DebugState.init, DebugState.hasLocationInfo]
    | some p =>
      cases ae with
      | none =>
        simp [getCurrentDebugState, DebugState.init, DebugState.hasLocationInfo,
          DebugState.updateContext, DebugState.updateFrameName]
      | some ed =>
        simp [getCurrentDebugState, DebugState.init, DebugState.hasLocationInfo,
          DebugState.updateContext, DebugState.updateFrameName, DebugState.updateLocation]

/-- Witness for C9: a paused session with an open editor yields a snapshot
whose location is populated together with its execution context, and an
engine with no session yields exactly the constructed state. -/
theorem snapshot_invariant_witness :
    ((getCurrentDebugState
        { hasActiveDebugSession := true
          activeStackFrame := some (7, 1)
          stackTraceFrameName := some "main"
          activeEditor := some
            { fileFullPath := "/a/f.py", cursorLine := 1, lines := ["a", " b ", "c"] } } 3).frameId.isSome = true ∧
      (getCurrentDebugState
        { hasActiveDebugSession := true
          activeStackFrame := some (7, 1)
          stackTraceFrameName := some "main"
          activeEditor := some
            { fileFullPath := "/a/f.py", cursorLine := 1, lines := ["a", " b ", "c"] } } 3).threadId.isSome = true) ∧
    getCurrentDebugState
      { hasActiveDebugSession := false
        activeStackFrame := none
        stackTraceFrameName := none
        activeEditor := none } 3 = DebugState.init :=
  ⟨(snapshot_invariant
      { hasActiveDebugSession := true
        activeStackFrame := some (7, 1)
        stackTraceFrameName := some "main"
        activeEditor := some
          { fileFullPath := "/a/f.py", cursorLine := 1, lines := ["a", " b ", "c"] } } 3).2 (by decide),
    (snapshot_invariant
      { hasActiveDebugSession := false
        activeStackFrame := none
        stackTraceFrameName := none
        activeEditor := none } 3).1 (by decide)⟩

/-- Claim C7: the formatter is total on well-formed snapshots and never
produces an empty string; an inactive snapshot formats to exactly the fixed
inactive notice; an active snapshot formats to the header, then a
`Frame: ` line when a frame name is present, then either the
File/Line/source-line block (when location is present) or the fixed
no-location notice. -/
theorem formatter_totality (s : DebugState) :
    formatDebugState s ≠ "" ∧
    (s.sessionActive = false → formatDebugState s = "Debug session is not active") ∧
    (s.sessionActive = true →
      strStarts (formatDebugState s) "Debug State:\n==========\n\n" = true ∧
      (s.hasFrameName = true → strIncludes (formatDebugState s) "Frame: " = true) ∧
      (s.hasLocationInfo = true →
        strIncludes (formatDebugState s) "File: " = true ∧
        strIncludes (formatDebugState s) "Line: " = true) ∧
      (s.hasLocationInfo = false →
        strIncludes (formatDebugState s)
          "No location information available. The session might have stopped or ended\n" = true)) := by
  by_cases hact : s.sessionActive = true
  · have hstart : strStarts (formatDebugState s) "Debug State:\n==========\n\n" = true := by
      cases hf : s.hasFrameName <;> cases hl : s.hasLocationInfo <;>
        simp only [formatDebugState, hact, Bool.not_true, Bool.false_eq_true, if_false, hf, hl,
          if_true, strStarts, String.data_append, List.append_assoc] <;>
        exact hasPre_self_append _ _
    refine ⟨?_, fun h => absurd hact (by simp [h]), fun _ => ⟨hstart, ?_, ?_, ?_⟩⟩
    · intro he
      rw [he] at hstart
      exact absurd hstart (by decide)
    · intro hf
      cases hl : s.hasLocationInfo <;>
        simp only [formatDebugState, hact, Bool.not_true, Bool.false_eq_true, if_false, hf, hl,
          if_true, strIncludes, String.data_append, List.append_assoc] <;>
        (repeat
          first
            | exact containsSub_of_hasPre _ _ (hasPre_refl _)
            | exact containsSub_of_hasPre _ _ (hasPre_self_append _ _)
            | apply containsSub_append_right)
    · intro hl
      constructor <;>
        (cases hf : s.hasFrameName <;>
          simp only [formatDebugState, hact, Bool.not_true, Bool.false_eq_true, if_false, hf, hl,
            if_true, strIncludes, String.data_append, List.append_assoc] <;>
          (repeat
            first
              | exact containsSub_of_hasPre _ _ (hasPre_refl _)
              | exact containsSub_of_hasPre _ _ (hasPre_self_append _ _)
              | apply containsSub_append_right))
    · intro hl
      cases hf : s.hasFrameName <;>
        simp only [formatDebugState, hact, Bool.not_true, Bool.false_eq_true, if_false, hf, hl,
          if_true, strIncludes, String.data_append, List.append_assoc] <;>
        (repeat
          first
            | exact containsSub_of_hasPre _ _ (hasPre_refl _)
            | exact containsSub_of_hasPre _ _ (hasPre_self_append _ _)
            | apply containsSub_append_right)
  · have hact2 : s.sessionActive = false := by
      cases hb : s.sessionActive
      · rfl
      · exact absurd hb hact
    have hfmt : formatDebugState s = "Debug session is not active" := by
      simp [formatDebugState, hact2]
    refine ⟨by rw [hfmt]; decide, fun _ => hfmt, fun h => absurd h hact⟩

/-- Witness for C7 at the all-absent-but-active snapshot: non-empty output
starting with the header and containing the no-location notice. -/
theorem formatter_totality_witness :
    formatDebugState { DebugState.init with sessionActive := true } ≠ "" ∧
    strStarts (formatDebugState { DebugState.init with sessionActive := true })
      "Debug State:\n==========\n\n" = true ∧
    strIncludes (formatDebugState { DebugState.init with sessionActive := true })
      "No location information available. The session might have stopped or ended\n" = true :=
  ⟨(formatter_totality { DebugState.init with sessionActive := true }).1,
    ((formatter_totality { DebugState.init with sessionActive := true }).2.2 (by decide)).1,
    ((formatter_totality { DebugState.init with sessionActive := true }).2.2
      (by decide)).2.2.2 (by decide)⟩

end DebugMCP
